import Mathlib

/-!
Shallow embedding of `src/readonce.py` (py-read-once, version 1.0.3): the
read-once secret container `ReadOnce`, its `Final` metaclass, its attribute
guards, and its serialization guards.

Modelling notes, traceable line by line against the source:

* The three fields `__secrets`, `__is_consumed`, `__key` are CLASS attributes
  (`readonce.py` lines 44-46), and every mutator of them is a `classmethod`
  that assigns `cls.__secrets` / `cls.__is_consumed` / `cls.__key`
  (lines 56-74).  `ReadOnce.__setattr__` (lines 181-203) never writes the
  instance `__dict__` at all.  Consequently ONE such state is shared by all
  instances of a concrete container class, and running `__init__` for any new
  instance resets that shared state (lines 51-54).  `ReadOnceState` below is
  that class-level state.
* `cryptography.fernet` is modelled symbolically: a token records the key it
  was encrypted under and the plaintext; decryption succeeds exactly with the
  same key.  `Fernet.generate_key()` draws from an explicit seed parameter
  standing for the randomness source, and always returns a non-empty byte
  string.
* The source gates `get_secret` and the attribute hooks on the caller's
  function name obtained through `inspect.currentframe()`; the caller name is
  passed as an explicit `String` parameter.
* A Python method's outcome is an `Except PyError` result (raise vs return)
  paired with the state after the call, so that mutations performed before a
  raise are kept, exactly as exceptions propagate in Python.
-/

namespace PyReadOnce

/-- Byte strings (Python `bytes`) are modelled as lists of naturals. -/
abbrev Bytes := List Nat

/-- Python truthiness test `not x` applied to an `Optional[bytes]` value:
`None` and `b""` are falsy, any non-empty byte string is truthy.  Used for
`if not self.__key:` in `add_secret` (line 91) and `get_secret` (line 105). -/
def optBytesFalsy : Option Bytes → Bool
  | none => true
  | some bs => bs.isEmpty

/-- A Fernet token, modelled symbolically: authenticated encryption pairs the
key used with the plaintext; only the exact key decrypts it. -/
structure Token where
  key : Bytes
  plaintext : String
deriving DecidableEq

/-- Models `Fernet.generate_key()` (line 78): a fresh, never-empty byte string
drawn from an explicit seed standing for the randomness source. -/
def generate_key (seed : Nat) : Bytes := [seed]

/-- Models `fernet.encrypt(bytes(secret_, encoding="utf-8"))` (line 80) for a
Fernet instance built from `key`. -/
def fernet_encrypt (key : Bytes) (plaintext : String) : Token := ⟨key, plaintext⟩

/-- Models `fernet.decrypt(token)` (line 111) followed by the utf-8 decode
(line 113): `none` stands for the `InvalidToken` exception raised when the
key does not match the token. -/
def fernet_decrypt (key : Bytes) (t : Token) : Option String :=
  if t.key = key then some t.plaintext else none

/-- The exceptions the embedded code can raise.  `unsupportedOperation arg`
is `UnsupportedOperationException(arg)` (lines 14-17); its fixed message
"Not allowed on sensitive value" is implicit, `arg` is the optional extra
argument (`""` when raised with no argument). -/
inductive PyError where
  | unsupportedOperation (arg : String)
  | typeError (msg : String)
  | attributeError (name : String)
  | invalidToken
deriving DecidableEq

/-- The mutable state behind a `ReadOnce` container.  In the source these are
class attributes (lines 44-46) mutated only through `classmethod`s assigning
on `cls` (lines 56-74), so the state is shared by every instance of the same
concrete class; constructing any instance resets it (lines 51-54). -/
structure ReadOnceState where
  secrets : List Token
  is_consumed : Bool
  key : Option Bytes
deriving DecidableEq

/-- The class-level state right after the class body executes (lines 44-46):
no secrets, not consumed, no key. -/
def classInitialState : ReadOnceState := ⟨[], false, none⟩

/-- Effect of `ReadOnce.__init__` (lines 51-54) on the class-level state: it
calls `__reset_secrets`, `__reset_is_consumed` and `__reset_key`, setting the
shared state to `([], False, None)` whatever it was before.  Because the
state is class-level, this models constructing ANY instance of the class, at
any time. -/
def ReadOnce_init (_st : ReadOnceState) : ReadOnceState := ⟨[], false, none⟩

/-- `ReadOnce.add_secret` (lines 76-95).  Raises if the container is already
consumed (lines 82-85); otherwise resets the secret list (line 87) and the
key (line 88), generates a fresh key and token (line 89), installs the key
(line 90), checks the key is truthy (lines 91-94, never failing since
generated keys are non-empty), and appends the token (line 95).  `seed` feeds
`Fernet.generate_key`; `str(secret)` is the identity on the string secrets
modelled here. -/
def add_secret (st : ReadOnceState) (secret : String) (seed : Nat) :
    Except PyError Unit × ReadOnceState :=
  if st.is_consumed then
    (Except.error (PyError.unsupportedOperation "Sensitive object exhausted; you can not use it twice"), st)
  else
    let st1 : ReadOnceState := ⟨[], st.is_consumed, st.key⟩
    let st2 : ReadOnceState := ⟨st1.secrets, st1.is_consumed, none⟩
    let key := generate_key seed
    let token := fernet_encrypt key secret
    let st3 : ReadOnceState := ⟨st2.secrets, st2.is_consumed, some key⟩
    if optBytesFalsy st3.key then
      (Except.error (PyError.unsupportedOperation "Missing encryption key; impossible to store the secret"), st3)
    else
      (Except.ok (), ⟨st3.secrets ++ [token], st3.is_consumed, st3.key⟩)

/-- `ReadOnce.get_secret` (lines 97-114).  `caller` is the name of the calling
function two frames up (through the icontract wrapper, lines 98-100); an
encoder `default` hook is rejected first (lines 101-102).  With a non-empty
secret list (line 103) it marks the container consumed (line 104), checks the
key (lines 105-108), pops the last token (line 110, modelled as
`getLast?` plus `dropLast`), decrypts (line 111), resets the key (line 112)
and returns the plaintext (line 113); an empty list raises (line 114). -/
def get_secret (st : ReadOnceState) (caller : String) :
    Except PyError String × ReadOnceState :=
  if caller = "default" then
    (Except.error (PyError.unsupportedOperation "Sensitive data can not be serialized"), st)
  else
    match st.secrets.getLast? with
    | none =>
        (Except.error (PyError.unsupportedOperation "Sensitive data was already consumed"), st)
    | some token =>
        let st1 : ReadOnceState := ⟨st.secrets, true, st.key⟩
        match st1.key with
        | none =>
            (Except.error (PyError.unsupportedOperation "Missing encryption key; impossible decrypt the secret"), st1)
        | some k =>
            if k.isEmpty then
              (Except.error (PyError.unsupportedOperation "Missing encryption key; impossible decrypt the secret"), st1)
            else
              let st2 : ReadOnceState := ⟨st1.secrets.dropLast, st1.is_consumed, st1.key⟩
              match fernet_decrypt k token with
              | some plaintext => (Except.ok plaintext, ⟨st2.secrets, st2.is_consumed, none⟩)
              | none => (Except.error PyError.invalidToken, st2)

/-- The `secrets` property (lines 116-118): always a fresh empty list,
whatever the state. -/
def secrets_property (_st : ReadOnceState) : List Token := []

/-- The `is_consumed` property (lines 120-122): always `None`. -/
def is_consumed_property (_st : ReadOnceState) : Option Bool := none

/-- The `key` property (lines 124-126): always `None`. -/
def key_property (_st : ReadOnceState) : Option Bytes := none

/-- `ReadOnce.__dir__` (lines 205-206): always the empty list. -/
def dir_method (_st : ReadOnceState) : List String := []

/-- `ReadOnce.__str__` (lines 208-209).  The f-string reads
`__class__.__name__`, and the implicit `__class__` cell always refers to the
defining class `ReadOnce`, so the literal is the same for every subclass and
every state. -/
def str_method (_st : ReadOnceState) : String := "ReadOnce[secrets=*****]"

/-- `ReadOnce.__repr__` (lines 211-212): same fixed literal as `__str__`. -/
def repr_method (_st : ReadOnceState) : String := "ReadOnce[secrets=*****]"

/-- `ReadOnce.__getstate__` (lines 214-215): raises
`UnsupportedOperationException()` unconditionally (no argument). -/
def getstate (_st : ReadOnceState) : Except PyError Unit :=
  Except.error (PyError.unsupportedOperation "")

/-- `ReadOnce.__setstate__` (lines 217-218): raises
`UnsupportedOperationException()` unconditionally (no argument). -/
def setstate (_st : ReadOnceState) (_value : String) : Except PyError Unit :=
  Except.error (PyError.unsupportedOperation "")

/-- `ReadOnce.__len__` (lines 220-221): the length of the real class-level
secret list (the `__getattribute__` guard, lines 132-137, lets `__len__`
see the real list). -/
def ReadOnce_len (st : ReadOnceState) : Nat := st.secrets.length

/-- A Python class object as compared by identity in `Final.__new__`:
`readOnce` is the `ReadOnce` class itself, `other name` any other class
object, for instance a concrete secret type such as `Password`. -/
inductive ClassRef where
  | readOnce
  | other (name : String)
deriving DecidableEq

/-- `Final.__new__` (lines 20-25): creating a class whose metaclass is
`Final` raises `TypeError` as soon as one listed base is not the `ReadOnce`
class itself; otherwise the new class object is produced. -/
def Final_new (name : String) (bases : List ClassRef) : Except PyError ClassRef :=
  if ∀ b ∈ bases, b = ClassRef.readOnce then Except.ok (ClassRef.other name)
  else Except.error (PyError.typeError "Subclassing final classes is restricted")

/-- The instance `__dict__`: a finite map from attribute names to values. -/
abbrev AttrDict := List (String × String)

/-- `ReadOnce.__setattr__` (lines 181-203).  The three guarded mangled names
raise `UnsupportedOperationException()` unless written from the listed
methods; EVERY other case falls off the end of the method, which never calls
`object.__setattr__`, so no assignment is ever performed and the instance
`__dict__` is returned unchanged. -/
def ReadOnce_setattr (d : AttrDict) (name caller _value : String) :
    Except PyError Unit × AttrDict :=
  if name = "_ReadOnce__secrets" ∧ ¬ (caller = "add_secret" ∨ caller = "__init__") then
    (Except.error (PyError.unsupportedOperation ""), d)
  else if name = "_ReadOnce__is_consumed" ∧ ¬ (caller = "get_secret" ∨ caller = "__init__") then
    (Except.error (PyError.unsupportedOperation ""), d)
  else if name = "_ReadOnce__key" ∧ ¬ (caller = "get_secret" ∨ caller = "add_secret" ∨ caller = "__init__") then
    (Except.error (PyError.unsupportedOperation ""), d)
  else
    (Except.ok (), d)

/-- Fallback attribute lookup `super().__getattribute__(name)` reached from
`ReadOnce.__getattribute__` (line 179) for a name that is neither a class
attribute nor one of the guarded mangled names: the value from the instance
`__dict__`, or `AttributeError` when absent. -/
def instance_lookup (d : AttrDict) (name : String) : Except PyError String :=
  match d.lookup name with
  | some v => Except.ok v
  | none => Except.error (PyError.attributeError name)

/-- Whether a call raised. -/
def isError {α : Type} : Except PyError α → Bool
  | Except.error _ => true
  | Except.ok _ => false

/-- States of the shared class-level storage reachable through the public
surface: constructing an instance (at any point), `add_secret`, and
`get_secret`. -/
inductive Reachable : ReadOnceState → Prop where
  | construct (st : ReadOnceState) : Reachable (ReadOnce_init st)
  | add (st : ReadOnceState) (s : String) (seed : Nat) (h : Reachable st) :
      Reachable (add_secret st s seed).2
  | get (st : ReadOnceState) (c : String) (h : Reachable st) :
      Reachable (get_secret st c).2

/-! Helper evaluation lemmas for the two lifecycle operations. -/

lemma getLast_of_singleton {α : Type} (a : α) : ([a] : List α).getLast? = some a := rfl

lemma dropLast_of_singleton {α : Type} (a : α) : ([a] : List α).dropLast = [] := rfl

lemma add_secret_consumed_eq (st : ReadOnceState) (s : String) (seed : Nat)
    (h : st.is_consumed = true) :
    add_secret st s seed =
      (Except.error (PyError.unsupportedOperation "Sensitive object exhausted; you can not use it twice"), st) := by
  simp [add_secret, h]

lemma add_secret_fresh_eq (st : ReadOnceState) (s : String) (seed : Nat)
    (h : st.is_consumed = false) :
    add_secret st s seed =
      (Except.ok (),
       ⟨[fernet_encrypt (generate_key seed) s], false, some (generate_key seed)⟩) := by
  simp [add_secret, h, optBytesFalsy, generate_key, fernet_encrypt]

lemma get_secret_default_eq (st : ReadOnceState) :
    get_secret st "default" =
      (Except.error (PyError.unsupportedOperation "Sensitive data can not be serialized"), st) := by
  simp [get_secret]

lemma get_secret_empty_eq (st : ReadOnceState) (c : String) (hc : c ≠ "default")
    (h : st.secrets = []) :
    get_secret st c =
      (Except.error (PyError.unsupportedOperation "Sensitive data was already consumed"), st) := by
  simp [get_secret, hc, h]

lemma get_secret_stored_eq (k : Bytes) (s : String) (b : Bool) (c : String)
    (hc : c ≠ "default") (hk : k ≠ []) :
    get_secret ⟨[fernet_encrypt k s], b, some k⟩ c = (Except.ok s, ⟨[], true, none⟩) := by
  have hke : k.isEmpty = false := by
    cases k with
    | nil => exact absurd rfl hk
    | cons a as => rfl
  simp [get_secret, hc, fernet_encrypt, fernet_decrypt, hke,
    getLast_of_singleton, dropLast_of_singleton]

/-- Structural invariant of the reachable states: either the container is
bare (no token, no key), or it holds exactly one token encrypted under the
exactly matching, non-empty stored key, and is not consumed. -/
lemma reachable_invariant {st : ReadOnceState} (h : Reachable st) :
    (st.secrets = [] ∧ st.key = none) ∨
    (∃ k s, k ≠ [] ∧ st.key = some k ∧ st.secrets = [fernet_encrypt k s] ∧
      st.is_consumed = false) := by
  induction h with
  | construct st => exact Or.inl ⟨rfl, rfl⟩
  | add st s seed hst ih =>
      cases hcons : st.is_consumed with
      | false =>
          rw [add_secret_fresh_eq st s seed hcons]
          exact Or.inr ⟨generate_key seed, s, by simp [generate_key], rfl, rfl, rfl⟩
      | true =>
          rw [add_secret_consumed_eq st s seed hcons]
          exact ih
  | get st c hst ih =>
      by_cases hc : c = "default"
      · subst hc
        rw [get_secret_default_eq st]
        exact ih
      · rcases ih with ⟨hsec, hkey⟩ | ⟨k, s, hk, hkey, hsec, hcons⟩
        · rw [get_secret_empty_eq st c hc hsec]
          exact Or.inl ⟨hsec, hkey⟩
        · have hst_eq : st = ⟨[fernet_encrypt k s], false, some k⟩ := by
            cases st
            simp_all
          rw [hst_eq, get_secret_stored_eq k s false c hc hk]
          exact Or.inl ⟨rfl, rfl⟩

/-- C1: on a freshly created container, `add_secret s` followed immediately by
`get_secret` returns `s` (with `.ok`), exactly once: a second `get_secret`
raises `UnsupportedOperationException` from the empty/already-consumed family
and returns nothing.  `c1`, `c2` are the caller names of the two reads (any
ordinary caller, i.e. not an encoder `default` hook). -/
theorem store_then_consume_returns_secret_once (stPrev : ReadOnceState)
    (s : String) (seed : Nat) (c1 c2 : String)
    (h1 : c1 ≠ "default") (h2 : c2 ≠ "default") :
    (add_secret (ReadOnce_init stPrev) s seed).1 = Except.ok () ∧
    (get_secret (add_secret (ReadOnce_init stPrev) s seed).2 c1).1 = Except.ok s ∧
    (get_secret (get_secret (add_secret (ReadOnce_init stPrev) s seed).2 c1).2 c2).1 =
      Except.error (PyError.unsupportedOperation "Sensitive data was already consumed") := by
  have hAdd := add_secret_fresh_eq (ReadOnce_init stPrev) s seed rfl
  have hkne : generate_key seed ≠ [] := by simp [generate_key]
  have hGet := get_secret_stored_eq (generate_key seed) s false c1 h1 hkne
  have hEmpty := get_secret_empty_eq (⟨[], true, none⟩ : ReadOnceState) c2 h2 rfl
  refine ⟨?_, ?_, ?_⟩ <;> simp only [hAdd, hGet, hEmpty]

/-- C1 witness: the scenario at the concrete secret "hunter2". -/
theorem store_then_consume_returns_secret_once_witness :
    (add_secret (ReadOnce_init classInitialState) "hunter2" 0).1 = Except.ok () ∧
    (get_secret (add_secret (ReadOnce_init classInitialState) "hunter2" 0).2 "test_fn").1 =
      Except.ok "hunter2" ∧
    (get_secret (get_secret (add_secret (ReadOnce_init classInitialState) "hunter2" 0).2 "test_fn").2 "test_fn").1 =
      Except.error (PyError.unsupportedOperation "Sensitive data was already consumed") :=
  store_then_consume_returns_secret_once classInitialState "hunter2" 0 "test_fn" "test_fn"
    (by decide) (by decide)

/-- C2 failing run: the Consumed state is not terminal for an instance.  After
instance `a` stores and consumes a secret the shared class state is consumed,
but constructing a second instance `b` runs `__init__`, which resets the
class-level `__is_consumed` that `a` also reads, after which `add_secret` on
`a` succeeds again instead of raising `AlreadyConsumed`. -/
theorem consumed_state_escaped_by_reconstruction :
    ((get_secret (add_secret (ReadOnce_init classInitialState) "x" 0).2 "test_fn").2).is_consumed = true ∧
    (ReadOnce_init ((get_secret (add_secret (ReadOnce_init classInitialState) "x" 0).2 "test_fn").2)).is_consumed = false ∧
    (add_secret (ReadOnce_init ((get_secret (add_secret (ReadOnce_init classInitialState) "x" 0).2 "test_fn").2)) "y" 1).1 =
      Except.ok () := by
  refine ⟨?_, rfl, ?_⟩ <;> rfl

/-- C3 failing run: container state is not per-instance.  Instance `a` stores
a secret (`len(a) = 1`); constructing a second instance `b` resets the shared
class-level storage, after which `len(a) = 0`: the secret observable through
`a` was destroyed by an operation on another container. -/
theorem construction_resets_sibling_container :
    ReadOnce_len ((add_secret (ReadOnce_init classInitialState) "x" 0).2) = 1 ∧
    ReadOnce_len (ReadOnce_init ((add_secret (ReadOnce_init classInitialState) "x" 0).2)) = 0 := by
  exact ⟨rfl, rfl⟩

/-- C4: from any reachable state, a failed `add_secret` or `get_secret`
leaves the state (secret list, consumed flag, key) exactly as it was before
the call: in particular a failed read neither marks the container consumed
nor discards the secret or the key. -/
theorem failed_calls_leave_state_unchanged (st : ReadOnceState) (h : Reachable st)
    (s : String) (seed : Nat) (caller : String) :
    (isError (add_secret st s seed).1 = true → (add_secret st s seed).2 = st) ∧
    (isError (get_secret st caller).1 = true → (get_secret st caller).2 = st) := by
  have ih := reachable_invariant h
  constructor
  · intro herr
    cases hcons : st.is_consumed with
    | true => rw [add_secret_consumed_eq st s seed hcons]
    | false =>
        rw [add_secret_fresh_eq st s seed hcons] at herr
        simp [isError] at herr
  · intro herr
    by_cases hc : caller = "default"
    · subst hc
      rw [get_secret_default_eq st]
    · rcases ih with ⟨hsec, hkey⟩ | ⟨k, s2, hk, hkey, hsec, hcons⟩
      · rw [get_secret_empty_eq st caller hc hsec]
      · have hst_eq : st = ⟨[fernet_encrypt k s2], false, some k⟩ := by
          cases st
          simp_all
        rw [hst_eq, get_secret_stored_eq k s2 false caller hc hk] at herr
        simp [isError] at herr

/-- C4 witness: a failing second read on a concrete consumed container leaves
the state unchanged. -/
theorem failed_calls_leave_state_unchanged_witness :
    isError (get_secret ((get_secret (add_secret (ReadOnce_init classInitialState) "x" 0).2 "test_fn").2) "test_fn").1 = true ∧
    (get_secret ((get_secret (add_secret (ReadOnce_init classInitialState) "x" 0).2 "test_fn").2) "test_fn").2 =
      (get_secret (add_secret (ReadOnce_init classInitialState) "x" 0).2 "test_fn").2 :=
  ⟨rfl,
   (failed_calls_leave_state_unchanged
      ((get_secret (add_secret (ReadOnce_init classInitialState) "x" 0).2 "test_fn").2)
      (Reachable.get _ "test_fn" (Reachable.add _ "x" 0 (Reachable.construct classInitialState)))
      "y" 1 "test_fn").2 rfl⟩

/-- C5: overwrite is last-write-wins.  On a fresh container, `add_secret s1`
then `add_secret s2` both succeed, and the following read returns `s2` (and
only `s2`): the earlier token and its key were discarded when the second
secret was installed. -/
theorem overwrite_last_write_wins (stPrev : ReadOnceState) (s1 s2 : String)
    (seed1 seed2 : Nat) (c : String) (hc : c ≠ "default") :
    (add_secret (ReadOnce_init stPrev) s1 seed1).1 = Except.ok () ∧
    (add_secret (add_secret (ReadOnce_init stPrev) s1 seed1).2 s2 seed2).1 = Except.ok () ∧
    (add_secret (add_secret (ReadOnce_init stPrev) s1 seed1).2 s2 seed2).2 =
      ⟨[fernet_encrypt (generate_key seed2) s2], false, some (generate_key seed2)⟩ ∧
    (get_secret (add_secret (add_secret (ReadOnce_init stPrev) s1 seed1).2 s2 seed2).2 c).1 =
      Except.ok s2 := by
  have hAdd1 := add_secret_fresh_eq (ReadOnce_init stPrev) s1 seed1 rfl
  have hkne : generate_key seed2 ≠ [] := by simp [generate_key]
  refine ⟨?_, ?_, ?_, ?_⟩
  · rw [hAdd1]
  · rw [hAdd1]
    rw [add_secret_fresh_eq _ s2 seed2 rfl]
  · rw [hAdd1]
    rw [add_secret_fresh_eq _ s2 seed2 rfl]
  · rw [hAdd1]
    rw [add_secret_fresh_eq _ s2 seed2 rfl]
    exact congrArg Prod.fst (get_secret_stored_eq (generate_key seed2) s2 false c hc hkne)

/-- C5 witness: storing "a" then "b" on a fresh container and reading yields
"b". -/
theorem overwrite_last_write_wins_witness :
    (add_secret (ReadOnce_init classInitialState) "a" 0).1 = Except.ok () ∧
    (add_secret (add_secret (ReadOnce_init classInitialState) "a" 0).2 "b" 1).1 = Except.ok () ∧
    (add_secret (add_secret (ReadOnce_init classInitialState) "a" 0).2 "b" 1).2 =
      ⟨[fernet_encrypt (generate_key 1) "b"], false, some (generate_key 1)⟩ ∧
    (get_secret (add_secret (add_secret (ReadOnce_init classInitialState) "a" 0).2 "b" 1).2 "test_fn").1 =
      Except.ok "b" :=
  overwrite_last_write_wins classInitialState "a" "b" 0 1 "test_fn" (by decide)

/-- C6: at every reachable state the container holds zero or one secret:
`__len__` never reports a count beyond the set containing 0 and 1, however
many times `add_secret` ran. -/
theorem secret_count_at_most_one (st : ReadOnceState) (h : Reachable st) :
    ReadOnce_len st = 0 ∨ ReadOnce_len st = 1 := by
  rcases reachable_invariant h with ⟨hsec, _⟩ | ⟨k, s, _, _, hsec, _⟩
  · left
    simp [ReadOnce_len, hsec]
  · right
    simp [ReadOnce_len, hsec]

/-- C6 witness: the bound at a concrete reachable state. -/
theorem secret_count_at_most_one_witness :
    ReadOnce_len (ReadOnce_init classInitialState) = 0 ∨
    ReadOnce_len (ReadOnce_init classInitialState) = 1 :=
  secret_count_at_most_one (ReadOnce_init classInitialState)
    (Reachable.construct classInitialState)

/-- C7: every externally visible view is independent of the container's state
and content: for any two states, the `secrets` property is `[]`, the
`is_consumed` and `key` properties are `None`, `__dir__` is empty, and
`__str__` and `__repr__` are one identical fixed masked literal. -/
theorem observable_views_state_independent (st st' : ReadOnceState) :
    secrets_property st = secrets_property st' ∧
    secrets_property st = [] ∧
    is_consumed_property st = none ∧
    key_property st = none ∧
    dir_method st = [] ∧
    str_method st = str_method st' ∧
    repr_method st = repr_method st' ∧
    str_method st = "ReadOnce[secrets=*****]" ∧
    repr_method st = "ReadOnce[secrets=*****]" :=
  ⟨rfl, rfl, rfl, rfl, rfl, rfl, rfl, rfl, rfl⟩

/-- C8: every externalization attempt fails with
`UnsupportedOperationException`, uniformly in every state (hence in Empty,
Stored and Consumed alike): `__getstate__` and `__setstate__` raise, and a
`get_secret` reached from an encoder `default` hook raises before touching
the state. -/
theorem serialization_attempts_denied (st : ReadOnceState) (v : String) :
    getstate st = Except.error (PyError.unsupportedOperation "") ∧
    setstate st v = Except.error (PyError.unsupportedOperation "") ∧
    (get_secret st "default").1 =
      Except.error (PyError.unsupportedOperation "Sensitive data can not be serialized") ∧
    (get_secret st "default").2 = st := by
  refine ⟨rfl, rfl, ?_, ?_⟩
  · exact congrArg Prod.fst (get_secret_default_eq st)
  · exact congrArg Prod.snd (get_secret_default_eq st)

/-- C9: the container type permits exactly one level of extension: a class
listing only the `ReadOnce` class as base is created, while defining a class
with any base other than `ReadOnce` itself (so in particular a second level
of derivation, whose base is a concrete secret type) raises `TypeError` at
definition time. -/
theorem single_level_extension_only (name1 name2 : String) (b : ClassRef)
    (bases : List ClassRef) (hb : b ∈ bases) (hbad : b ≠ ClassRef.readOnce) :
    Final_new name1 [ClassRef.readOnce] = Except.ok (ClassRef.other name1) ∧
    Final_new name2 bases =
      Except.error (PyError.typeError "Subclassing final classes is restricted") := by
  constructor
  · simp [Final_new]
  · have hnall : ¬ ∀ x ∈ bases, x = ClassRef.readOnce := fun hall => hbad (hall b hb)
    simp only [Final_new, if_neg hnall]

/-- C9 witness: `Password` on `ReadOnce` is created, `TryPassword` on
`Password` is rejected. -/
theorem single_level_extension_only_witness :
    Final_new "Password" [ClassRef.readOnce] = Except.ok (ClassRef.other "Password") ∧
    Final_new "TryPassword" [ClassRef.other "Password"] =
      Except.error (PyError.typeError "Subclassing final classes is restricted") :=
  single_level_extension_only "Password" "TryPassword" (ClassRef.other "Password")
    [ClassRef.other "Password"] (by simp) (by decide)

/-- C10: assigning any attribute other than the three guarded mangled names
on a container instance, from any calling context, is silently swallowed by
`__setattr__`: it raises nothing, performs no assignment, and leaves the
instance `__dict__` unchanged, so a later plain lookup of that name still
fails with `AttributeError` when the name was absent before. -/
theorem setattr_unguarded_names_ignored (d : AttrDict) (name caller v : String)
    (h1 : name ≠ "_ReadOnce__secrets") (h2 : name ≠ "_ReadOnce__is_consumed")
    (h3 : name ≠ "_ReadOnce__key") :
    ReadOnce_setattr d name caller v = (Except.ok (), d) ∧
    (d.lookup name = none →
      instance_lookup (ReadOnce_setattr d name caller v).2 name =
        Except.error (PyError.attributeError name)) := by
  have hs : ReadOnce_setattr d name caller v = (Except.ok (), d) := by
    simp [ReadOnce_setattr, h1, h2, h3]
  refine ⟨hs, ?_⟩
  intro hnone
  rw [hs]
  simp [instance_lookup, hnone]

/-- C10 witness: the `DBPassword` scenario: `self.password = v` written from
`__post_init__` on an instance with an empty `__dict__` is ignored, and the
later read of `password` fails with `AttributeError`. -/
theorem setattr_unguarded_names_ignored_witness :
    ReadOnce_setattr [] "password" "__post_init__" "db-password" =
      (Except.ok (), ([] : AttrDict)) ∧
    instance_lookup (ReadOnce_setattr [] "password" "__post_init__" "db-password").2 "password" =
      Except.error (PyError.attributeError "password") :=
  ⟨(setattr_unguarded_names_ignored [] "password" "__post_init__" "db-password"
      (by decide) (by decide) (by decide)).1,
   (setattr_unguarded_names_ignored [] "password" "__post_init__" "db-password"
      (by decide) (by decide) (by decide)).2 rfl⟩

end PyReadOnce
